import Mathlib

/-!
Shallow embedding of the ReviewMaestro payment backend (src/app.py):
the create-subscription endpoint, the Stripe webhook relay, and the
subscription-status lookup, together with theorems settling the frozen
claims about them. JSON values are modelled by an inductive type,
Python exceptions by an explicit error type, and the Stripe SDK by an
environment of call-result functions; HTTP responses are status plus a
JSON or text body.
-/

namespace RM

/-- JSON values as delivered by Flask request.get_json: null, booleans,
(integer) numbers, strings, arrays, and objects as ordered field lists. -/
inductive Json where
  | null : Json
  | bool : Bool → Json
  | num : Int → Json
  | str : String → Json
  | arr : List Json → Json
  | obj : List (String × Json) → Json

/-- Python exceptions that the embedded code can raise or receive from the
Stripe SDK. The stripe error classes (CardError, RateLimitError,
InvalidRequestError, AuthenticationError, APIConnectionError, the generic
StripeError, and SignatureVerificationError) are each a constructor carrying
the text that str applied to the exception yields; cardError also carries the
user_message field read by the card-error arm. -/
inductive PyExc where
  | typeError : PyExc
  | keyError : String → PyExc
  | badRequest : PyExc
  | valueError : String → PyExc
  | otherError : String → PyExc
  | cardError : String → String → PyExc
  | rateLimitError : String → PyExc
  | invalidRequestError : String → PyExc
  | authenticationError : String → PyExc
  | apiConnectionError : String → PyExc
  | stripeError : String → PyExc
  | sigVerificationError : String → PyExc

/-- The text Python str produces for an exception. For KeyError the str is
the repr of the missing key; TypeError texts vary by operation and are
abstracted to a fixed tag, which no response of the program depends on. -/
def strOfPyExc : PyExc → String
  | PyExc.typeError => "TypeError"
  | PyExc.keyError k => "\x27" ++ k ++ "\x27"
  | PyExc.badRequest => "400 Bad Request"
  | PyExc.valueError m => m
  | PyExc.otherError m => m
  | PyExc.cardError _ m => m
  | PyExc.rateLimitError m => m
  | PyExc.invalidRequestError m => m
  | PyExc.authenticationError m => m
  | PyExc.apiConnectionError m => m
  | PyExc.stripeError m => m
  | PyExc.sigVerificationError m => m

/-- Whether an exception is an instance of stripe.error.StripeError
(every stripe error class is a subclass of it). -/
def isStripeError : PyExc → Bool
  | PyExc.cardError _ _ => true
  | PyExc.rateLimitError _ => true
  | PyExc.invalidRequestError _ => true
  | PyExc.authenticationError _ => true
  | PyExc.apiConnectionError _ => true
  | PyExc.stripeError _ => true
  | PyExc.sigVerificationError _ => true
  | _ => false

/-- Whether the first character list starts the second. -/
def charsPrefix : List Char → List Char → Bool
  | [], _ => true
  | _ :: _, [] => false
  | a :: as, b :: bs => a == b && charsPrefix as bs

/-- Whether the first character list occurs inside the second. -/
def charsContain (needle : List Char) : List Char → Bool
  | [] => needle.isEmpty
  | b :: bs => charsPrefix needle (b :: bs) || charsContain needle bs

/-- Python substring test, needle in hay, on strings. -/
def strContain (needle hay : String) : Bool :=
  charsContain needle.data hay.data

/-- Python membership test, field in data. Dicts test key membership,
strings test substring containment, lists test element equality; None,
booleans and numbers are not containers and raise TypeError. -/
def pyIn (field : String) : Json → Except PyExc Bool
  | Json.obj fs => Except.ok (fs.any (fun kv => kv.1 == field))
  | Json.arr xs =>
      Except.ok (xs.any (fun x =>
        match x with
        | Json.str s => s == field
        | _ => false))
  | Json.str s => Except.ok (strContain field s)
  | _ => Except.error PyExc.typeError

/-- Python subscript data[k] with a string key: dict lookup (KeyError when
absent); every other value raises TypeError for a string index. -/
def pyIndex (j : Json) (k : String) : Except PyExc Json :=
  match j with
  | Json.obj fs =>
      match fs.find? (fun kv => kv.1 == k) with
      | some kv => Except.ok kv.2
      | none => Except.error (PyExc.keyError k)
  | _ => Except.error PyExc.typeError

/-- Python dict.get(k, default); on a non-dict the attribute access raises. -/
def pyGetD (j : Json) (k : String) (dflt : Json) : Except PyExc Json :=
  match j with
  | Json.obj fs =>
      match fs.find? (fun kv => kv.1 == k) with
      | some kv => Except.ok kv.2
      | none => Except.ok dflt
  | _ => Except.error (PyExc.otherError "AttributeError")

mutual
/-- Python repr of a JSON value, used for values nested inside containers. -/
def pyRepr : Json → String
  | Json.null => "None"
  | Json.bool true => "True"
  | Json.bool false => "False"
  | Json.num n => toString n
  | Json.str s => "\x27" ++ s ++ "\x27"
  | Json.arr xs => "[" ++ String.intercalate ", " (pyReprList xs) ++ "]"
  | Json.obj fs => "\x7b" ++ String.intercalate ", " (pyReprFields fs) ++ "\x7d"

def pyReprList : List Json → List String
  | [] => []
  | x :: xs => pyRepr x :: pyReprList xs

def pyReprFields : List (String × Json) → List String
  | [] => []
  | (k, v) :: fs => ("\x27" ++ k ++ "\x27: " ++ pyRepr v) :: pyReprFields fs
end

/-- Python str of a JSON value, as interpolated by an f-string: a string is
itself, everything else renders as its repr. -/
def pyStr : Json → String
  | Json.str s => s
  | j => pyRepr j

/-- Truthiness of an optional string, as tested by Python, if not x:
falsy when absent (None) or empty. -/
def optFalsy : Option String → Bool
  | none => true
  | some s => s == ""

/-- An HTTP response body: either a JSON object (jsonify of a dict, fields
in order) or a plain text body. -/
inductive RespBody where
  | json : List (String × Json) → RespBody
  | text : String → RespBody

/-- An HTTP response: status code and body. -/
structure HttpResponse where
  status : Nat
  body : RespBody

/-- jsonify(dict), status — Flask JSON response. -/
def jsonResp (status : Nat) (fields : List (String × Json)) : HttpResponse :=
  { status := status, body := RespBody.json fields }

/-- A plain-text response with a status code. -/
def textResp (status : Nat) (s : String) : HttpResponse :=
  { status := status, body := RespBody.text s }

/-! ### The create-subscription endpoint (src/app.py, create_subscription) -/

/-- The four price-id environment variables read at startup; each may be
unset (None). -/
structure EnvVars where
  starter_monthly : Option String
  starter_yearly : Option String
  professional_monthly : Option String
  professional_yearly : Option String

/-- The PRICE_IDS dict: four fixed keys, each mapped to the (possibly
absent) value of its environment variable. -/
def PRICE_IDS (ev : EnvVars) : List (String × Option String) :=
  [("starter_monthly", ev.starter_monthly),
   ("starter_yearly", ev.starter_yearly),
   ("professional_monthly", ev.professional_monthly),
   ("professional_yearly", ev.professional_yearly)]

/-- PRICE_IDS.get(plan_key): None when the key is absent, else the stored
value, which is itself None when the environment variable was unset. -/
def priceIdsGet (ev : EnvVars) (plan_key : String) : Option String :=
  Option.join (List.lookup plan_key (PRICE_IDS ev))

/-- A Stripe customer object as returned by stripe.Customer.create. -/
structure Customer where
  id : String

/-- A payment intent carrying a client secret. -/
structure PaymentIntent where
  client_secret : String

/-- A Stripe subscription object as returned by stripe.Subscription.create
with latest_invoice.payment_intent expanded (absent when no payment
intent exists on the latest invoice). -/
structure SubscriptionObj where
  id : String
  latest_invoice_payment_intent : Option PaymentIntent
  trial_end : Int
  status : String

/-- A record of one outbound Stripe API call made by the endpoint, with the
arguments the code passes. -/
inductive ProviderCall where
  | customerCreate : Json → Json → Json → Json → Json → Json → ProviderCall
  | subscriptionCreate : String → String → Nat → ProviderCall

/-- The Stripe SDK as seen by create_subscription: the price-id
configuration plus the behaviour of the two outbound calls, each of which
either returns an object or raises. -/
structure StripeEnv where
  envVars : EnvVars
  customerCreate : Json → Json → Json → Json → Json → Json → Except PyExc Customer
  subscriptionCreate : String → String → Nat → Except PyExc SubscriptionObj

/-- The ordered list of required request fields. -/
def required_fields : List String :=
  ["email", "name", "plan", "billing_cycle", "payment_method_id"]

/-- The validation loop: for field in required_fields, if field not in
data return that field. Returns the first missing field, none when all are
present, or propagates the exception a membership test on a non-container
body raises. -/
def firstMissing (data : Json) : List String → Except PyExc (Option String)
  | [] => Except.ok none
  | f :: fs =>
      match pyIn f data with
      | Except.error e => Except.error e
      | Except.ok true => firstMissing data fs
      | Except.ok false => Except.ok (some f)

/-- The chain of except arms of create_subscription: each stripe error
class maps to its status and message (the generic StripeError arm also
catches stripe subclasses not matched earlier), and any other exception
reaches the final generic 500 arm. -/
def stripe_exc_response : PyExc → HttpResponse
  | PyExc.cardError um _ =>
      jsonResp 400 [("error", Json.str ("Card error: " ++ um))]
  | PyExc.rateLimitError _ =>
      jsonResp 429 [("error", Json.str "Too many requests. Please try again later.")]
  | PyExc.invalidRequestError m =>
      jsonResp 400 [("error", Json.str ("Invalid request: " ++ m))]
  | PyExc.authenticationError _ =>
      jsonResp 401 [("error", Json.str "Authentication failed. Please contact support.")]
  | PyExc.apiConnectionError _ =>
      jsonResp 503 [("error", Json.str "Network error. Please try again.")]
  | PyExc.stripeError m =>
      jsonResp 400 [("error", Json.str ("Payment processing error: " ++ m))]
  | PyExc.sigVerificationError m =>
      jsonResp 400 [("error", Json.str ("Payment processing error: " ++ m))]
  | _ =>
      jsonResp 500 [("error", Json.str "An unexpected error occurred. Please try again.")]

/-- The create-subscription endpoint. The argument getJson is the outcome
of request.get_json() (an exception when the body is absent or unparsable).
Returns the HTTP response together with the list of Stripe calls made, in
order; every exception raised inside the try block is routed through the
except arms, so the endpoint itself never raises. -/
def create_subscription (env : StripeEnv) (getJson : Except PyExc Json) :
    HttpResponse × List ProviderCall :=
  let run : Except PyExc HttpResponse × List ProviderCall :=
    match getJson with
    | Except.error e => (Except.error e, [])
    | Except.ok data =>
      match firstMissing data required_fields with
      | Except.error e => (Except.error e, [])
      | Except.ok (some field) =>
          (Except.ok (jsonResp 400 [("error", Json.str ("Missing required field: " ++ field))]), [])
      | Except.ok none =>
        match pyIndex data "plan" with
        | Except.error e => (Except.error e, [])
        | Except.ok planJ =>
          match pyIndex data "billing_cycle" with
          | Except.error e => (Except.error e, [])
          | Except.ok cycleJ =>
            let plan_key := pyStr planJ ++ "_" ++ pyStr cycleJ
            let price_id := priceIdsGet env.envVars plan_key
            if optFalsy price_id then
              (Except.ok (jsonResp 400 [("error", Json.str ("Invalid plan or billing cycle: " ++ plan_key))]), [])
            else
              match pyIndex data "email" with
              | Except.error e => (Except.error e, [])
              | Except.ok emailJ =>
                match pyIndex data "name" with
                | Except.error e => (Except.error e, [])
                | Except.ok nameJ =>
                  match pyIndex data "payment_method_id" with
                  | Except.error e => (Except.error e, [])
                  | Except.ok pmJ =>
                    match pyGetD data "company" (Json.str "") with
                    | Except.error e => (Except.error e, [])
                    | Except.ok companyJ =>
                      let custCall := ProviderCall.customerCreate emailJ nameJ pmJ planJ cycleJ companyJ
                      match env.customerCreate emailJ nameJ pmJ planJ cycleJ companyJ with
                      | Except.error e => (Except.error e, [custCall])
                      | Except.ok customer =>
                        let pid := price_id.getD ""
                        let subCall := ProviderCall.subscriptionCreate customer.id pid 14
                        match env.subscriptionCreate customer.id pid 14 with
                        | Except.error e => (Except.error e, [custCall, subCall])
                        | Except.ok s =>
                            (Except.ok (jsonResp 200
                              [("subscription_id", Json.str s.id),
                               ("customer_id", Json.str customer.id),
                               ("client_secret",
                                 match s.latest_invoice_payment_intent with
                                 | some pi => Json.str pi.client_secret
                                 | none => Json.null),
                               ("trial_end", Json.num s.trial_end),
                               ("status", Json.str s.status)]), [custCall, subCall])
  match run with
  | (Except.ok r, calls) => (r, calls)
  | (Except.error e, calls) => (stripe_exc_response e, calls)

/-! ### The webhook relay (src/app.py, stripe_webhook and the handlers) -/

/-- Python equality of a JSON value with a string literal: true exactly
when the value is that string (comparison with any other type is False,
not an error). -/
def pyEqStr (j : Json) (s : String) : Bool :=
  match j with
  | Json.str t => t == s
  | _ => false

/-- handle_subscription_created: logs the subscription id (raising if the
data object has no id field); the remaining work is a documented TODO. -/
def handle_subscription_created (subscription : Json) : Except PyExc Unit :=
  match pyIndex subscription "id" with
  | Except.error e => Except.error e
  | Except.ok _ => Except.ok ()

/-- handle_subscription_updated: logs the id and status fields. -/
def handle_subscription_updated (subscription : Json) : Except PyExc Unit :=
  match pyIndex subscription "id" with
  | Except.error e => Except.error e
  | Except.ok _ =>
    match pyIndex subscription "status" with
    | Except.error e => Except.error e
    | Except.ok _ => Except.ok ()

/-- handle_subscription_deleted: logs the subscription id. -/
def handle_subscription_deleted (subscription : Json) : Except PyExc Unit :=
  match pyIndex subscription "id" with
  | Except.error e => Except.error e
  | Except.ok _ => Except.ok ()

/-- handle_payment_succeeded: logs the invoice id and amount_paid. -/
def handle_payment_succeeded (invoice : Json) : Except PyExc Unit :=
  match pyIndex invoice "id" with
  | Except.error e => Except.error e
  | Except.ok _ =>
    match pyIndex invoice "amount_paid" with
    | Except.error e => Except.error e
    | Except.ok _ => Except.ok ()

/-- handle_payment_failed: logs the invoice id and customer. -/
def handle_payment_failed (invoice : Json) : Except PyExc Unit :=
  match pyIndex invoice "id" with
  | Except.error e => Except.error e
  | Except.ok _ =>
    match pyIndex invoice "customer" with
    | Except.error e => Except.error e
    | Except.ok _ => Except.ok ()

/-- handle_trial_will_end: logs the subscription id. -/
def handle_trial_will_end (subscription : Json) : Except PyExc Unit :=
  match pyIndex subscription "id" with
  | Except.error e => Except.error e
  | Except.ok _ => Except.ok ()

/-- The recognized event types paired with the name of the handler each
dispatches to, in the order of the if/elif chain. -/
def handler_table : List (String × String) :=
  [("customer.subscription.created", "handle_subscription_created"),
   ("customer.subscription.updated", "handle_subscription_updated"),
   ("customer.subscription.deleted", "handle_subscription_deleted"),
   ("invoice.payment_succeeded", "handle_payment_succeeded"),
   ("invoice.payment_failed", "handle_payment_failed"),
   ("customer.subscription.trial_will_end", "handle_trial_will_end")]

/-- The if/elif dispatch on event type: runs the matching handler on the
data object (recording the invocation), or does nothing for an
unrecognized type. Returns the handler outcome and the invocation list. -/
def dispatch_event (event_type : Json) (data_object : Json) :
    Except PyExc Unit × List (String × Json) :=
  if pyEqStr event_type "customer.subscription.created" then
    (handle_subscription_created data_object, [("handle_subscription_created", data_object)])
  else if pyEqStr event_type "customer.subscription.updated" then
    (handle_subscription_updated data_object, [("handle_subscription_updated", data_object)])
  else if pyEqStr event_type "customer.subscription.deleted" then
    (handle_subscription_deleted data_object, [("handle_subscription_deleted", data_object)])
  else if pyEqStr event_type "invoice.payment_succeeded" then
    (handle_payment_succeeded data_object, [("handle_payment_succeeded", data_object)])
  else if pyEqStr event_type "invoice.payment_failed" then
    (handle_payment_failed data_object, [("handle_payment_failed", data_object)])
  else if pyEqStr event_type "customer.subscription.trial_will_end" then
    (handle_trial_will_end data_object, [("handle_trial_will_end", data_object)])
  else
    (Except.ok (), [])

/-- The step after dispatch: a handler exception is caught and answered
with a 500 text response appending str of the exception to Error handling
webhook, and a clean dispatch is acknowledged with the success JSON. -/
def ack_dispatch : Except PyExc Unit × List (String × Json) →
    Except PyExc HttpResponse × List (String × Json)
  | (Except.error e, inv) =>
      (Except.ok (textResp 500 ("Error handling webhook: " ++ strOfPyExc e)), inv)
  | (Except.ok _, inv) =>
      (Except.ok (jsonResp 200 [("status", Json.str "success")]), inv)

/-- The webhook configuration and SDK: the STRIPE_WEBHOOK_SECRET
environment variable and the behaviour of stripe.Webhook.construct_event
on (payload, signature header, secret) — a verified decoded event, or a
ValueError for an unparsable payload, or a SignatureVerificationError for
a bad signature. -/
structure WebhookEnv where
  endpointSecret : Option String
  constructEvent : String → Option String → String → Except PyExc Json

/-- The webhook endpoint. Returns the response (or the uncaught exception,
which only the field accesses outside the try block can produce) together
with the list of handler invocations made. The secret check precedes
signature verification; verification failures map to 400 text responses;
handler exceptions are caught and map to a 500 whose text appends str of
the exception to Error handling webhook. -/
def stripe_webhook (env : WebhookEnv) (payload : String) (sig_header : Option String) :
    Except PyExc HttpResponse × List (String × Json) :=
  if optFalsy env.endpointSecret then
    (Except.ok (textResp 400 "Webhook secret not configured"), [])
  else
    match env.constructEvent payload sig_header (env.endpointSecret.getD "") with
    | Except.error (PyExc.valueError _) =>
        (Except.ok (textResp 400 "Invalid payload"), [])
    | Except.error (PyExc.sigVerificationError _) =>
        (Except.ok (textResp 400 "Invalid signature"), [])
    | Except.error e => (Except.error e, [])
    | Except.ok event =>
      match pyIndex event "type" with
      | Except.error e => (Except.error e, [])
      | Except.ok event_type =>
        match pyIndex event "data" with
        | Except.error e => (Except.error e, [])
        | Except.ok dataField =>
          match pyIndex dataField "object" with
          | Except.error e => (Except.error e, [])
          | Except.ok data_object =>
            ack_dispatch (dispatch_event event_type data_object)

/-! ### The subscription-status endpoint (src/app.py, get_subscription_status) -/

/-- One item of a subscription, carrying the price nickname (absent when
the price has none). -/
structure SubItem where
  price_nickname : Option String

/-- A subscription as returned by stripe.Subscription.list. -/
structure StatusSubscription where
  id : String
  status : String
  current_period_start : Int
  current_period_end : Int
  trial_end : Option Int
  cancel_at_period_end : Bool
  items : List SubItem

/-- The SDK as seen by get_subscription_status: the behaviour of
stripe.Subscription.list for a customer id. -/
structure StatusEnv where
  listSubscriptions : String → Except PyExc (List StatusSubscription)

/-- JSON of an optional integer (None renders as null). -/
def jsonOfOptInt : Option Int → Json
  | some n => Json.num n
  | none => Json.null

/-- The subscription-status endpoint: empty list means no_subscription,
otherwise the first (most recent) subscription is summarised, with the
plan field null when the subscription has no items; stripe errors map to
400 and anything else to a generic 500. -/
def get_subscription_status (env : StatusEnv) (customer_id : String) : HttpResponse :=
  match env.listSubscriptions customer_id with
  | Except.error e =>
      if isStripeError e then
        jsonResp 400 [("error", Json.str ("Stripe error: " ++ strOfPyExc e))]
      else
        jsonResp 500 [("error", Json.str "An unexpected error occurred")]
  | Except.ok [] => jsonResp 200 [("status", Json.str "no_subscription")]
  | Except.ok (s :: _) =>
      jsonResp 200
        [("subscription_id", Json.str s.id),
         ("status", Json.str s.status),
         ("current_period_start", Json.num s.current_period_start),
         ("current_period_end", Json.num s.current_period_end),
         ("trial_end", jsonOfOptInt s.trial_end),
         ("cancel_at_period_end", Json.bool s.cancel_at_period_end),
         ("plan",
           match s.items with
           | [] => Json.null
           | i :: _ =>
             match i.price_nickname with
             | some n => Json.str n
             | none => Json.null)]

/-! ### Helper lemmas -/

theorem ack_dispatch_snd (p : Except PyExc Unit × List (String × Json)) :
    (ack_dispatch p).2 = p.2 := by
  rcases p with ⟨f, inv⟩
  cases f <;> rfl

theorem stripe_webhook_eq_dispatch (env : WebhookEnv) (payload : String)
    (sig_header : Option String) (secret : String) (event et dataField d : Json)
    (hs : env.endpointSecret = some secret) (hne : secret ≠ "")
    (hc : env.constructEvent payload sig_header secret = Except.ok event)
    (ht : pyIndex event "type" = Except.ok et)
    (hd : pyIndex event "data" = Except.ok dataField)
    (ho : pyIndex dataField "object" = Except.ok d) :
    stripe_webhook env payload sig_header = ack_dispatch (dispatch_event et d) := by
  simp [stripe_webhook, optFalsy, hs, hne, Option.getD, hc, ht, hd, ho]

theorem dispatch_event_of_mem (t hn : String) (d : Json)
    (hmem : (t, hn) ∈ handler_table) :
    (dispatch_event (Json.str t) d).2 = [(hn, d)] := by
  simp [handler_table] at hmem
  rcases hmem with ⟨rfl, rfl⟩ | ⟨rfl, rfl⟩ | ⟨rfl, rfl⟩ | ⟨rfl, rfl⟩ | ⟨rfl, rfl⟩ | ⟨rfl, rfl⟩ <;> rfl

theorem dispatch_event_unknown (t : String) (d : Json)
    (h : t ∉ handler_table.map Prod.fst) :
    dispatch_event (Json.str t) d = (Except.ok (), []) := by
  simp [handler_table] at h
  obtain ⟨h1, h2, h3, h4, h5, h6⟩ := h
  simp [dispatch_event, pyEqStr, h1, h2, h3, h4, h5, h6]

/-! ### Claim theorems -/

/-- C1: with a secret configured, whenever construct_event fails — a
ValueError for an unparsable body or a SignatureVerificationError for a
signature that does not verify — the webhook endpoint answers 400 with
the text Invalid payload, respectively Invalid signature, and the
invocation list is empty: no handler runs and no event reaches dispatch
from unauthenticated input. -/
theorem webhook_unauthenticated_rejected (env : WebhookEnv)
    (payload : String) (sig_header : Option String) (secret m : String)
    (hs : env.endpointSecret = some secret) (hne : secret ≠ "") :
    (env.constructEvent payload sig_header secret = Except.error (PyExc.valueError m) →
      stripe_webhook env payload sig_header =
        (Except.ok (textResp 400 "Invalid payload"), [])) ∧
    (env.constructEvent payload sig_header secret = Except.error (PyExc.sigVerificationError m) →
      stripe_webhook env payload sig_header =
        (Except.ok (textResp 400 "Invalid signature"), [])) := by
  constructor <;> intro hc <;>
    simp [stripe_webhook, optFalsy, hs, hne, Option.getD, hc]

/-- A webhook environment whose verifier always reports an unparsable
payload. -/
def wenvBadPayload : WebhookEnv :=
  { endpointSecret := some "whsec_1",
    constructEvent := fun _ _ _ => Except.error (PyExc.valueError "Invalid payload") }

/-- A webhook environment whose verifier always reports a bad signature. -/
def wenvBadSig : WebhookEnv :=
  { endpointSecret := some "whsec_1",
    constructEvent := fun _ _ _ =>
      Except.error (PyExc.sigVerificationError "No signatures found") }

/-- Witness for C1 at concrete deliveries. -/
theorem webhook_unauthenticated_rejected_witness :
    stripe_webhook wenvBadPayload "not json" none =
      (Except.ok (textResp 400 "Invalid payload"), []) ∧
    stripe_webhook wenvBadSig "\x7b\x7d" (some "t=1,v1=deadbeef") =
      (Except.ok (textResp 400 "Invalid signature"), []) :=
  ⟨(webhook_unauthenticated_rejected wenvBadPayload "not json" none "whsec_1"
      "Invalid payload" rfl (by decide)).1 rfl,
   (webhook_unauthenticated_rejected wenvBadSig "\x7b\x7d" (some "t=1,v1=deadbeef")
      "whsec_1" "No signatures found" rfl (by decide)).2 rfl⟩

/-- C3: when no webhook secret is configured (or it is empty, which the
truthiness test treats the same way), every delivery is answered 400 with
the text Webhook secret not configured, whatever the payload, the
signature header, and the verifier behaviour — the check precedes any
signature verification — no handler runs, and the message differs from
the bad-signature message. -/
theorem webhook_missing_secret_rejected (env : WebhookEnv)
    (payload : String) (sig_header : Option String)
    (h : env.endpointSecret = none ∨ env.endpointSecret = some "") :
    stripe_webhook env payload sig_header =
      (Except.ok (textResp 400 "Webhook secret not configured"), []) ∧
    "Webhook secret not configured" ≠ "Invalid signature" := by
  constructor
  · rcases h with h | h <;> simp [stripe_webhook, optFalsy, h]
  · decide

/-- Witness for C3 at a concrete delivery with no secret configured. -/
theorem webhook_missing_secret_rejected_witness :
    stripe_webhook
      { endpointSecret := none,
        constructEvent := fun _ _ _ => Except.error PyExc.typeError }
      "payload" (some "t=1") =
      (Except.ok (textResp 400 "Webhook secret not configured"), []) ∧
    "Webhook secret not configured" ≠ "Invalid signature" :=
  webhook_missing_secret_rejected _ "payload" (some "t=1") (Or.inl rfl)

/-- C2: for an authenticated event whose type tag is one of the six
recognized types, the invocation list is exactly the one matching handler
applied once to the data object; for any other type tag the invocation
list is empty and the response is the 200 success acknowledgement. -/
theorem webhook_dispatch_exactly_one_handler (env : WebhookEnv)
    (payload : String) (sig_header : Option String) (secret t : String)
    (event dataField d : Json)
    (hs : env.endpointSecret = some secret) (hne : secret ≠ "")
    (hc : env.constructEvent payload sig_header secret = Except.ok event)
    (ht : pyIndex event "type" = Except.ok (Json.str t))
    (hd : pyIndex event "data" = Except.ok dataField)
    (ho : pyIndex dataField "object" = Except.ok d) :
    (∀ hn : String, (t, hn) ∈ handler_table →
      (stripe_webhook env payload sig_header).2 = [(hn, d)]) ∧
    (t ∉ handler_table.map Prod.fst →
      stripe_webhook env payload sig_header =
        (Except.ok (jsonResp 200 [("status", Json.str "success")]), [])) := by
  constructor
  · intro hn hmem
    rw [stripe_webhook_eq_dispatch env payload sig_header secret event (Json.str t)
      dataField d hs hne hc ht hd ho]
    rw [ack_dispatch_snd]
    exact dispatch_event_of_mem t hn d hmem
  · intro hmem
    rw [stripe_webhook_eq_dispatch env payload sig_header secret event (Json.str t)
      dataField d hs hne hc ht hd ho]
    rw [dispatch_event_unknown t d hmem]
    rfl

/-- The data object of the scenario event from the spec. -/
def dObjW : Json :=
  Json.obj [("id", Json.str "in_1"), ("customer", Json.str "cus_1")]

/-- A webhook environment whose verifier accepts and decodes the spec
scenario body: type invoice.payment_failed with the object above. -/
def wenvPaymentFailed : WebhookEnv :=
  { endpointSecret := some "whsec_1",
    constructEvent := fun _ _ _ =>
      Except.ok (Json.obj
        [("type", Json.str "invoice.payment_failed"),
         ("data", Json.obj [("object", dObjW)])]) }

/-- A webhook environment whose verifier accepts an event of an
unrecognized type. -/
def wenvUnknownType : WebhookEnv :=
  { endpointSecret := some "whsec_1",
    constructEvent := fun _ _ _ =>
      Except.ok (Json.obj
        [("type", Json.str "charge.refunded"),
         ("data", Json.obj [("object", dObjW)])]) }

/-- Witness for C2: the payment-failed handler is invoked once with the
data object, and an unknown type yields no invocation and the success
acknowledgement. -/
theorem webhook_dispatch_exactly_one_handler_witness :
    (stripe_webhook wenvPaymentFailed "body" (some "sig")).2 =
      [("handle_payment_failed", dObjW)] ∧
    stripe_webhook wenvUnknownType "body" (some "sig") =
      (Except.ok (jsonResp 200 [("status", Json.str "success")]), []) :=
  ⟨(webhook_dispatch_exactly_one_handler wenvPaymentFailed "body" (some "sig")
      "whsec_1" "invoice.payment_failed" _ _ dObjW rfl (by decide) rfl rfl rfl rfl).1
      "handle_payment_failed" (by decide),
   (webhook_dispatch_exactly_one_handler wenvUnknownType "body" (some "sig")
      "whsec_1" "charge.refunded" _ _ dObjW rfl (by decide) rfl rfl rfl rfl).2
      (by decide)⟩

/-- C5: the relay outcome is a function of the delivery data alone — two
calls with the same body, signature header and configuration are the same
term and yield the same classification — and for an authenticated,
well-formed event the relay itself never raises: whatever the handler
does, the endpoint returns a response (handler exceptions are caught). -/
theorem webhook_classification_pure (env : WebhookEnv)
    (payload : String) (sig_header : Option String) (secret : String)
    (event et dataField d : Json)
    (hs : env.endpointSecret = some secret) (hne : secret ≠ "")
    (hc : env.constructEvent payload sig_header secret = Except.ok event)
    (ht : pyIndex event "type" = Except.ok et)
    (hd : pyIndex event "data" = Except.ok dataField)
    (ho : pyIndex dataField "object" = Except.ok d) :
    (∃ resp : HttpResponse, (stripe_webhook env payload sig_header).1 = Except.ok resp) ∧
    stripe_webhook env payload sig_header = stripe_webhook env payload sig_header := by
  refine ⟨?_, rfl⟩
  rw [stripe_webhook_eq_dispatch env payload sig_header secret event et dataField d
    hs hne hc ht hd ho]
  rcases hdd : dispatch_event et d with ⟨f, inv⟩
  cases f <;> exact ⟨_, rfl⟩

/-- Witness for C5: a redelivered valid event (here with a handler that
raises, the worst case) still gets a response rather than an exception. -/
theorem webhook_classification_pure_witness :
    (∃ resp : HttpResponse,
      (stripe_webhook wenvPaymentFailed "body" (some "sig")).1 = Except.ok resp) ∧
    stripe_webhook wenvPaymentFailed "body" (some "sig") =
      stripe_webhook wenvPaymentFailed "body" (some "sig") :=
  webhook_classification_pure wenvPaymentFailed "body" (some "sig")
    "whsec_1" _ _ _ dObjW rfl (by decide) rfl rfl rfl rfl

/-- A webhook environment delivering an authenticated
customer.subscription.created event whose data object has no id field, so
that the handler raises a KeyError when it logs the subscription id. -/
def wenvHandlerRaises : WebhookEnv :=
  { endpointSecret := some "whsec_1",
    constructEvent := fun _ _ _ =>
      Except.ok (Json.obj
        [("type", Json.str "customer.subscription.created"),
         ("data", Json.obj [("object", Json.obj [])])]) }

/-- C4 counterexample: a customer.subscription.created handler raises a
KeyError for the missing id; the endpoint does answer 500, but the body
text is Error handling webhook followed by str of the exception (the repr
of the missing key), and the offending event type appears nowhere in the
response, contradicting the claimed message of the form error handling
webhook followed by the type tag. -/
theorem webhook_handler_error_message_counterexample :
    stripe_webhook wenvHandlerRaises "body" (some "sig") =
      (Except.ok (textResp 500 ("Error handling webhook: " ++ "\x27id\x27")),
       [("handle_subscription_created", Json.obj [])]) ∧
    strContain "customer.subscription.created"
      ("Error handling webhook: " ++ "\x27id\x27") = false :=
  ⟨rfl, by decide⟩

/-- C4 amended: a handler exception never propagates past the dispatcher:
the endpoint catches it and returns a 500 response whose text is Error
handling webhook followed by str of the exception; the offending event
type goes to the server log, not into the response. -/
theorem webhook_handler_error_caught (env : WebhookEnv)
    (payload : String) (sig_header : Option String) (secret : String)
    (event et dataField d : Json) (e : PyExc) (inv : List (String × Json))
    (hs : env.endpointSecret = some secret) (hne : secret ≠ "")
    (hc : env.constructEvent payload sig_header secret = Except.ok event)
    (ht : pyIndex event "type" = Except.ok et)
    (hd : pyIndex event "data" = Except.ok dataField)
    (ho : pyIndex dataField "object" = Except.ok d)
    (hdisp : dispatch_event et d = (Except.error e, inv)) :
    stripe_webhook env payload sig_header =
      (Except.ok (textResp 500 ("Error handling webhook: " ++ strOfPyExc e)), inv) := by
  rw [stripe_webhook_eq_dispatch env payload sig_header secret event et dataField d
    hs hne hc ht hd ho]
  rw [hdisp]
  rfl

/-- Witness for the amended C4 at the concrete raising delivery. -/
theorem webhook_handler_error_caught_witness :
    stripe_webhook wenvHandlerRaises "body" (some "sig") =
      (Except.ok (textResp 500
        ("Error handling webhook: " ++ strOfPyExc (PyExc.keyError "id"))),
       [("handle_subscription_created", Json.obj [])]) :=
  webhook_handler_error_caught wenvHandlerRaises "body" (some "sig") "whsec_1"
    _ _ _ (Json.obj []) (PyExc.keyError "id")
    [("handle_subscription_created", Json.obj [])]
    rfl (by decide) rfl rfl rfl rfl rfl

/-- Price configuration with the starter monthly price set. -/
def evW : EnvVars :=
  { starter_monthly := some "price_sm", starter_yearly := none,
    professional_monthly := none, professional_yearly := none }

/-- A Stripe environment whose two calls succeed. -/
def senvOk : StripeEnv :=
  { envVars := evW,
    customerCreate := fun _ _ _ _ _ _ => Except.ok { id := "cus_1" },
    subscriptionCreate := fun _ _ _ =>
      Except.ok { id := "sub_1", latest_invoice_payment_intent := none,
                  trial_end := 1760000000, status := "trialing" } }

/-- A Stripe environment whose customer-create call raises a given
exception. -/
def senvErr (e : PyExc) : StripeEnv :=
  { envVars := evW,
    customerCreate := fun _ _ _ _ _ _ => Except.error e,
    subscriptionCreate := fun _ _ _ => Except.error e }

/-- A complete valid request body for the starter monthly plan. -/
def bodyOk : Json :=
  Json.obj
    [("email", Json.str "a@b.co"), ("name", Json.str "Ada"),
     ("plan", Json.str "starter"), ("billing_cycle", Json.str "monthly"),
     ("payment_method_id", Json.str "pm_1")]

/-- C6: once a request passes validation and reaches the provider, an
exception from the provider call is answered through the except arms, and
the arms realise exactly the claimed mapping: card error 400, rate limit
429, invalid request 400, authentication 401, network 503, generic
provider error 400, and any non-provider exception 500 with the generic
message. -/
theorem create_subscription_error_mapping (env : StripeEnv)
    (data emailJ nameJ pmJ planJ cycleJ companyJ : Json) (e : PyExc) (k um m : String)
    (h0 : firstMissing data required_fields = Except.ok none)
    (hp : pyIndex data "plan" = Except.ok planJ)
    (hcy : pyIndex data "billing_cycle" = Except.ok cycleJ)
    (hpr : optFalsy (priceIdsGet env.envVars (pyStr planJ ++ "_" ++ pyStr cycleJ)) = false)
    (he : pyIndex data "email" = Except.ok emailJ)
    (hn : pyIndex data "name" = Except.ok nameJ)
    (hpm : pyIndex data "payment_method_id" = Except.ok pmJ)
    (hco : pyGetD data "company" (Json.str "") = Except.ok companyJ)
    (hcc : env.customerCreate emailJ nameJ pmJ planJ cycleJ companyJ = Except.error e) :
    create_subscription env (Except.ok data) =
      (stripe_exc_response e,
       [ProviderCall.customerCreate emailJ nameJ pmJ planJ cycleJ companyJ]) ∧
    stripe_exc_response (PyExc.cardError um m) =
      jsonResp 400 [("error", Json.str ("Card error: " ++ um))] ∧
    stripe_exc_response (PyExc.rateLimitError m) =
      jsonResp 429 [("error", Json.str "Too many requests. Please try again later.")] ∧
    stripe_exc_response (PyExc.invalidRequestError m) =
      jsonResp 400 [("error", Json.str ("Invalid request: " ++ m))] ∧
    stripe_exc_response (PyExc.authenticationError m) =
      jsonResp 401 [("error", Json.str "Authentication failed. Please contact support.")] ∧
    stripe_exc_response (PyExc.apiConnectionError m) =
      jsonResp 503 [("error", Json.str "Network error. Please try again.")] ∧
    stripe_exc_response (PyExc.stripeError m) =
      jsonResp 400 [("error", Json.str ("Payment processing error: " ++ m))] ∧
    stripe_exc_response PyExc.typeError =
      jsonResp 500 [("error", Json.str "An unexpected error occurred. Please try again.")] ∧
    stripe_exc_response (PyExc.keyError k) =
      jsonResp 500 [("error", Json.str "An unexpected error occurred. Please try again.")] ∧
    stripe_exc_response PyExc.badRequest =
      jsonResp 500 [("error", Json.str "An unexpected error occurred. Please try again.")] ∧
    stripe_exc_response (PyExc.otherError m) =
      jsonResp 500 [("error", Json.str "An unexpected error occurred. Please try again.")] := by
  refine ⟨?_, rfl, rfl, rfl, rfl, rfl, rfl, rfl, rfl, rfl, rfl⟩
  simp [create_subscription, h0, hp, hcy, hpr, he, hn, hpm, hco, hcc]

/-- Witness for C6: a declined card at the concrete valid request. -/
theorem create_subscription_error_mapping_witness :
    create_subscription (senvErr (PyExc.cardError "Your card was declined." "declined"))
      (Except.ok bodyOk) =
      (jsonResp 400 [("error", Json.str "Card error: Your card was declined.")],
       [ProviderCall.customerCreate (Json.str "a@b.co") (Json.str "Ada")
         (Json.str "pm_1") (Json.str "starter") (Json.str "monthly") (Json.str "")]) := by
  have h := (create_subscription_error_mapping
    (senvErr (PyExc.cardError "Your card was declined." "declined"))
    bodyOk (Json.str "a@b.co") (Json.str "Ada") (Json.str "pm_1")
    (Json.str "starter") (Json.str "monthly") (Json.str "")
    (PyExc.cardError "Your card was declined." "declined") "k"
    "Your card was declined." "declined"
    rfl rfl rfl rfl rfl rfl rfl rfl rfl)
  exact h.1

/-- C7: a request whose body fails the required-field check is answered
400 with the error Missing required field naming the first missing field,
and no provider call is made; in particular an object body without an
email key — email is checked first — is answered with that message for
email. -/
theorem create_subscription_missing_field (env : StripeEnv) :
    (∀ (data : Json) (f : String),
      firstMissing data required_fields = Except.ok (some f) →
      create_subscription env (Except.ok data) =
        (jsonResp 400 [("error", Json.str ("Missing required field: " ++ f))], [])) ∧
    (∀ fs : List (String × Json),
      fs.any (fun kv => kv.1 == "email") = false →
      create_subscription env (Except.ok (Json.obj fs)) =
        (jsonResp 400 [("error", Json.str "Missing required field: email")], [])) := by
  constructor
  · intro data f h
    simp [create_subscription, h]
  · intro fs h
    have h1 : firstMissing (Json.obj fs) required_fields = Except.ok (some "email") := by
      simp [required_fields, firstMissing, pyIn, h]
    simp [create_subscription, h1]

/-- Witness for C7: a body with only a name is refused for the missing
email, without any provider call. -/
theorem create_subscription_missing_field_witness :
    create_subscription senvOk (Except.ok (Json.obj [("name", Json.str "Ada")])) =
      (jsonResp 400 [("error", Json.str "Missing required field: email")], []) :=
  (create_subscription_missing_field senvOk).2 [("name", Json.str "Ada")] rfl

/-- A complete request body asking for the unconfigured starter weekly
combination. -/
def bodyBadPlan : Json :=
  Json.obj
    [("email", Json.str "a@b.co"), ("name", Json.str "Ada"),
     ("plan", Json.str "starter"), ("billing_cycle", Json.str "weekly"),
     ("payment_method_id", Json.str "pm_1")]

/-- C8 counterexample: for plan starter with billing cycle weekly the
endpoint does answer 400 with no provider call, but the message appends
the offending key — Invalid plan or billing cycle: starter_weekly — which
is not the bare message the claim states. -/
theorem create_subscription_invalid_plan_counterexample :
    create_subscription senvOk (Except.ok bodyBadPlan) =
      (jsonResp 400
        [("error", Json.str "Invalid plan or billing cycle: starter_weekly")], []) ∧
    "Invalid plan or billing cycle: starter_weekly" ≠ "Invalid plan or billing cycle" :=
  ⟨rfl, by decide⟩

/-- C8 amended: when the joined plan and billing-cycle key has no truthy
configured price id, the endpoint answers 400 with the message Invalid
plan or billing cycle followed by a colon and the offending key, and
makes no provider call. -/
theorem create_subscription_invalid_plan (env : StripeEnv)
    (data planJ cycleJ : Json)
    (h0 : firstMissing data required_fields = Except.ok none)
    (hp : pyIndex data "plan" = Except.ok planJ)
    (hcy : pyIndex data "billing_cycle" = Except.ok cycleJ)
    (hpr : optFalsy (priceIdsGet env.envVars (pyStr planJ ++ "_" ++ pyStr cycleJ)) = true) :
    create_subscription env (Except.ok data) =
      (jsonResp 400
        [("error", Json.str
          ("Invalid plan or billing cycle: " ++ (pyStr planJ ++ "_" ++ pyStr cycleJ)))],
       []) := by
  simp [create_subscription, h0, hp, hcy, hpr]

/-- Witness for the amended C8 at the concrete starter weekly request. -/
theorem create_subscription_invalid_plan_witness :
    create_subscription senvOk (Except.ok bodyBadPlan) =
      (jsonResp 400
        [("error", Json.str
          ("Invalid plan or billing cycle: " ++
            (pyStr (Json.str "starter") ++ "_" ++ pyStr (Json.str "weekly"))))],
       []) :=
  create_subscription_invalid_plan senvOk bodyBadPlan
    (Json.str "starter") (Json.str "weekly") rfl rfl rfl rfl

/-- C9: a provider listing with no subscriptions is answered 200 with
status no_subscription, and a most-recent subscription without items is
summarised with a null plan field instead of raising. -/
theorem subscription_status_empty_and_no_items (env : StatusEnv) (cid : String)
    (s : StatusSubscription) (rest : List StatusSubscription) :
    (env.listSubscriptions cid = Except.ok [] →
      get_subscription_status env cid =
        jsonResp 200 [("status", Json.str "no_subscription")]) ∧
    (env.listSubscriptions cid = Except.ok (s :: rest) → s.items = [] →
      get_subscription_status env cid =
        jsonResp 200
          [("subscription_id", Json.str s.id),
           ("status", Json.str s.status),
           ("current_period_start", Json.num s.current_period_start),
           ("current_period_end", Json.num s.current_period_end),
           ("trial_end", jsonOfOptInt s.trial_end),
           ("cancel_at_period_end", Json.bool s.cancel_at_period_end),
           ("plan", Json.null)]) := by
  constructor
  · intro h
    simp [get_subscription_status, h]
  · intro h hi
    simp [get_subscription_status, h, hi]

/-- A provider that lists no subscriptions for any customer. -/
def stenvEmpty : StatusEnv :=
  { listSubscriptions := fun _ => Except.ok [] }

/-- A subscription with no items. -/
def subNoItems : StatusSubscription :=
  { id := "sub_9", status := "active", current_period_start := 1700000000,
    current_period_end := 1702000000, trial_end := none,
    cancel_at_period_end := false, items := [] }

/-- A provider that lists exactly the item-less subscription. -/
def stenvOne : StatusEnv :=
  { listSubscriptions := fun _ => Except.ok [subNoItems] }

/-- Witness for C9 at two concrete lookups. -/
theorem subscription_status_empty_and_no_items_witness :
    get_subscription_status stenvEmpty "cus_1" =
      jsonResp 200 [("status", Json.str "no_subscription")] ∧
    get_subscription_status stenvOne "cus_2" =
      jsonResp 200
        [("subscription_id", Json.str subNoItems.id),
         ("status", Json.str subNoItems.status),
         ("current_period_start", Json.num subNoItems.current_period_start),
         ("current_period_end", Json.num subNoItems.current_period_end),
         ("trial_end", jsonOfOptInt subNoItems.trial_end),
         ("cancel_at_period_end", Json.bool subNoItems.cancel_at_period_end),
         ("plan", Json.null)] :=
  ⟨(subscription_status_empty_and_no_items stenvEmpty "cus_1" subNoItems []).1 rfl,
   (subscription_status_empty_and_no_items stenvOne "cus_2" subNoItems []).2 rfl rfl⟩

/-- C10: a request body that is valid JSON but not an object — null or a
number — makes the membership test raise a TypeError, and an absent or
unparsable body raises before that; both land in the generic except arm,
so the endpoint answers 500 with the generic message rather than a
field-level 400, and makes no provider call. -/
theorem create_subscription_non_object_body (env : StripeEnv) (n : Int) :
    create_subscription env (Except.ok Json.null) =
      (jsonResp 500 [("error", Json.str "An unexpected error occurred. Please try again.")],
       []) ∧
    create_subscription env (Except.ok (Json.num n)) =
      (jsonResp 500 [("error", Json.str "An unexpected error occurred. Please try again.")],
       []) ∧
    create_subscription env (Except.error PyExc.badRequest) =
      (jsonResp 500 [("error", Json.str "An unexpected error occurred. Please try again.")],
       []) :=
  ⟨rfl, rfl, rfl⟩

end RM
